import Mathlib

/-!
Verification of the `media_uploader` repository (Google Drive / YouTube
upload wrappers).  The definitions below are a shallow embedding of the
Python sources:

* `src/media_uploader/drive/uploader.py`   (class `DriveUploader`)
* `src/media_uploader/youtube/uploader.py` (class `YoutubeUploader`)
* `src/media_uploader/youtube/enums.py`    (enumerations)

Remote Drive state is modelled as a list of nodes together with a counter
supplying fresh provider-assigned ids; every remote call performed by the
code is recorded in an explicit operation trace.  Python exceptions are
modelled with `Except PyErr`; Python attributes that may not yet be
assigned on `self` are modelled with `Option` fields read through
`getAttr` (an unassigned attribute read raises `AttributeError`).
-/

/-- Python exceptions that the embedded code can raise or propagate. -/
inductive PyErr where
  | attributeError (attr : String)
  | valueError (msg : String)
  | fileNotFound (path : String)
  | authError (msg : String)
  | other (msg : String)
deriving DecidableEq, Repr

/-- Reading a Python attribute: `none` means the attribute was never
assigned on `self`, so the read raises `AttributeError`. -/
def getAttr {α : Type} (x : Option α) (attr : String) : Except PyErr α :=
  match x with
  | some v => Except.ok v
  | none => Except.error (PyErr.attributeError attr)

/-- Whether an `Except` result is an error. -/
def exceptIsError {α : Type} : Except PyErr α → Bool
  | Except.error _ => true
  | Except.ok _ => false

/-! ## Remote Drive state -/

/-- A node of the remote Drive tree: provider-assigned id, name, optional
parent id, and whether it is a folder (mimeType application/vnd.google-apps.folder). -/
structure DriveNode where
  id : Nat
  name : String
  parent : Option Nat
  isFolder : Bool
deriving DecidableEq, Repr

/-- Remote Drive state: the visible nodes (in creation order, which is the
order the list endpoint returns them) and the next fresh provider id. -/
structure DriveState where
  nodes : List DriveNode
  nextId : Nat
deriving DecidableEq, Repr

/-- Remote calls issued by `DriveUploader`.  `listFolders` records the
query (name, optional parent constraint) and how many results came back;
the create operations record the metadata sent and the id assigned. -/
inductive RemoteOp where
  | listFolders (name : String) (parent : Option Nat) (found : Nat)
  | createFolder (name : String) (parent : Option Nat) (id : Nat)
  | createFile (name : String) (parent : Option Nat) (id : Nat)
deriving DecidableEq, Repr

/-- The folder lookup query of `find_or_create_folder`:
`name='{folder}' and mimeType='application/vnd.google-apps.folder'`,
with `'{current_parent}' in parents` appended only when `current_parent`
is set (the code omits the parent clause when it is `None`). -/
def folderQueryMatches (name : String) (parent : Option Nat) (n : DriveNode) : Bool :=
  n.name == name && n.isFolder &&
    (match parent with
     | none => true
     | some p => n.parent == some p)

/-- The `files().list` call of `find_or_create_folder`: returns the
matching folders in the order the remote state holds them. -/
def listFolderQuery (s : DriveState) (name : String) (parent : Option Nat) : List DriveNode :=
  s.nodes.filter (folderQueryMatches name parent)

/-- The `files().create` call for a folder: a fresh provider id is
assigned and the new node is appended to the remote state. -/
def createFolderNode (s : DriveState) (name : String) (parent : Option Nat) :
    Nat × DriveState :=
  (s.nextId, ⟨s.nodes ++ [⟨s.nextId, name, parent, true⟩], s.nextId + 1⟩)

/-- One iteration of the `for folder in folders` loop of
`find_or_create_folder`: list first; if no results, create the folder;
advance `current_parent` to the found or created id. -/
def findOrCreateStep (s : DriveState) (parent : Option Nat) (seg : String) :
    Nat × DriveState × List RemoteOp :=
  match listFolderQuery s seg parent with
  | [] =>
    let r := createFolderNode s seg parent
    (r.1, r.2, [RemoteOp.listFolders seg parent 0, RemoteOp.createFolder seg parent r.1])
  | n :: rest =>
    (n.id, s, [RemoteOp.listFolders seg parent (rest.length + 1)])

/-- The loop of `find_or_create_folder` over the list of path segments. -/
def findOrCreateSegs (s : DriveState) (segs : List String) (parent : Option Nat) :
    Option Nat × DriveState × List RemoteOp :=
  match segs with
  | [] => (parent, s, [])
  | seg :: rest =>
    let r1 := findOrCreateStep s parent seg
    let r2 := findOrCreateSegs r1.2.1 rest (some r1.1)
    (r2.1, r2.2.1, r1.2.2 ++ r2.2.2)

/-- Python `folder_path.split("/")` on the underlying character list:
always returns at least one segment (splitting the empty string gives
`[""]`), and adjacent separators yield empty segments. -/
def pySplitSlashChars : List Char → List String
  | [] => [""]
  | c :: rest =>
    if c = '/' then "" :: pySplitSlashChars rest
    else
      match pySplitSlashChars rest with
      | [] => [String.mk [c]]
      | sg :: sgs => String.mk (c :: sg.data) :: sgs

/-- Python `folder_path.split("/")`. -/
def pySplitSlash (folder_path : String) : List String :=
  pySplitSlashChars folder_path.data

/-- `DriveUploader.find_or_create_folder(folder_path, parent_id)`:
splits the path on `/` and walks the segments with a
query-before-create step at each one.  Returns the final folder id,
the remote state after the call, and the trace of remote calls. -/
def find_or_create_folder (s : DriveState) (folder_path : String) (parent_id : Option Nat) :
    Option Nat × DriveState × List RemoteOp :=
  findOrCreateSegs s (pySplitSlash folder_path) parent_id

/-! ## Trace counting -/

/-- Number of folder-creation calls in a trace. -/
def countFolderCreates (tr : List RemoteOp) : Nat :=
  tr.countP fun o =>
    match o with
    | RemoteOp.createFolder _ _ _ => true
    | _ => false

/-- Number of file-creation calls in a trace. -/
def countFileCreates (tr : List RemoteOp) : Nat :=
  tr.countP fun o =>
    match o with
    | RemoteOp.createFile _ _ _ => true
    | _ => false

/-- Number of lookup (`files().list`) calls in a trace. -/
def countListCalls (tr : List RemoteOp) : Nat :=
  tr.countP fun o =>
    match o with
    | RemoteOp.listFolders _ _ _ => true
    | _ => false

/-- A trace respects query-before-create when every folder-creation call
is immediately preceded by a lookup for the same name and parent that
returned zero results. -/
def queryBeforeCreate : List RemoteOp → Bool
  | [] => true
  | [RemoteOp.listFolders _ _ _] => true
  | [RemoteOp.createFolder _ _ _] => false
  | [RemoteOp.createFile _ _ _] => true
  | RemoteOp.listFolders n p 0 :: RemoteOp.createFolder n2 p2 _ :: rest =>
    n == n2 && p == p2 && queryBeforeCreate rest
  | RemoteOp.createFolder _ _ _ :: _ :: _ => false
  | _ :: o :: rest => queryBeforeCreate (o :: rest)

/-! ## Local filesystem and the upload entry points -/

/-- A local path as `upload` classifies it: a regular file, a directory
with its immediate children (the order `os.listdir` yields them), or
something that is neither (missing path, socket, ...). -/
inductive LocalEntry where
  | file (name : String)
  | dir (name : String) (children : List LocalEntry)
  | other (name : String)

/-- Whether the entry is neither a file nor a directory. -/
def isOtherEntry : LocalEntry → Bool
  | LocalEntry.other _ => true
  | _ => false

/-- The basename `upload` reports in its `ValueError` message. -/
def entryName : LocalEntry → String
  | LocalEntry.file n => n
  | LocalEntry.dir n _ => n
  | LocalEntry.other n => n

/-- `DriveUploader.upload_file(file_path, parent_id)`: one
`files().create` call with the basename and `parents=[parent_id]`.
The Python method has no `return` statement, so it returns `None`
(modelled as `none`); the provider-assigned id appears only in the
trace and the remote state. -/
def upload_file (s : DriveState) (file_name : String) (parent_id : Option Nat) :
    Option Nat × DriveState × List RemoteOp :=
  (none,
   ⟨s.nodes ++ [⟨s.nextId, file_name, parent_id, false⟩], s.nextId + 1⟩,
   [RemoteOp.createFile file_name parent_id s.nextId])

mutual

/-- One iteration of the `for item in os.listdir(local_folder)` loop of
`DriveUploader.upload_folder`: files are uploaded via `upload_file`;
subdirectories are created unconditionally as new folder nodes (no
lookup) and recursed into; anything else is skipped. -/
def uploadFolderItem (s : DriveState) (e : LocalEntry) (parent : Option Nat) :
    DriveState × List RemoteOp :=
  match e with
  | LocalEntry.file name =>
    let r := upload_file s name parent
    (r.2.1, r.2.2)
  | LocalEntry.dir name children =>
    let r := createFolderNode s name parent
    let r2 := uploadFolderItems r.2 children (some r.1)
    (r2.1, RemoteOp.createFolder name parent r.1 :: r2.2)
  | LocalEntry.other _ => (s, [])

/-- The loop body of `DriveUploader.upload_folder` over the listed
children. -/
def uploadFolderItems (s : DriveState) (items : List LocalEntry) (parent : Option Nat) :
    DriveState × List RemoteOp :=
  match items with
  | [] => (s, [])
  | e :: rest =>
    let r1 := uploadFolderItem s e parent
    let r2 := uploadFolderItems r1.1 rest parent
    (r2.1, r1.2 ++ r2.2)

end

/-- `DriveUploader.upload_folder(local_folder, drive_folder_id)`. -/
def upload_folder (s : DriveState) (local_folder : LocalEntry) (drive_folder_id : Option Nat) :
    DriveState × List RemoteOp :=
  match local_folder with
  | LocalEntry.dir _ children => uploadFolderItems s children drive_folder_id
  | e => uploadFolderItem s e drive_folder_id

/-- `DriveUploader.upload(src_path, dst_path)`: resolves `dst_path`
first via `find_or_create_folder` (issuing its remote calls), then
dispatches on `os.path.isfile` / `os.path.isdir`, raising `ValueError`
when `src_path` is neither; on success returns the resolved folder id. -/
def upload (s : DriveState) (src_path : LocalEntry) (dst_path : String) :
    Except PyErr (Option Nat) × DriveState × List RemoteOp :=
  let f := find_or_create_folder s dst_path none
  match src_path with
  | LocalEntry.file name =>
    let r := upload_file f.2.1 name f.1
    (Except.ok f.1, r.2.1, f.2.2 ++ r.2.2)
  | LocalEntry.dir _ children =>
    let r := uploadFolderItems f.2.1 children f.1
    (Except.ok f.1, r.1, f.2.2 ++ r.2)
  | LocalEntry.other name =>
    (Except.error (PyErr.valueError name), f.2.1, f.2.2)

/-! ## Counting local entries -/

mutual

/-- Regular files reachable from an entry through directories (the files
`upload_folder` uploads below that entry). -/
def entryFileCount : LocalEntry → Nat
  | LocalEntry.file _ => 1
  | LocalEntry.dir _ children => entryListFileCount children
  | LocalEntry.other _ => 0

/-- Regular files reachable from a list of entries. -/
def entryListFileCount : List LocalEntry → Nat
  | [] => 0
  | e :: rest => entryFileCount e + entryListFileCount rest

end

mutual

/-- Directories reachable from an entry, the entry itself included when
it is a directory (the folders `upload_folder` creates for it). -/
def entryDirCount : LocalEntry → Nat
  | LocalEntry.file _ => 0
  | LocalEntry.dir _ children => 1 + entryListDirCount children
  | LocalEntry.other _ => 0

/-- Directories reachable from a list of entries. -/
def entryListDirCount : List LocalEntry → Nat
  | [] => 0
  | e :: rest => entryDirCount e + entryListDirCount rest

end

/-! ## Credential lifecycle (Drive `get_credentials`, YouTube `authenticate`) -/

/-- The observable state of a `google.oauth2.credentials.Credentials`
object: `valid`, `expired`, and whether a refresh token is present. -/
structure CredsState where
  valid : Bool
  expired : Bool
  refresh_token : Bool
deriving DecidableEq, Repr

/-- Operations the credential code performs against the outside world:
token-file read, refresh (network), secrets-file read, the interactive
OAuth local server (records the port it binds), token-file write, and
the vendor service construction. -/
inductive AuthOp where
  | loadTokenFile (path : String)
  | refreshCall
  | loadSecrets (path : String)
  | runLocalServer (port : Nat)
  | writeTokenFile (path : String)
  | buildService
deriving DecidableEq, Repr

/-- Outcomes of the external collaborators (filesystem, vendor OAuth
library, network): fixed per run, consulted by the embedded code in
program order. -/
structure AuthEnv where
  tokenFileExists : Bool
  loadToken : Except PyErr CredsState
  refreshResult : Except PyErr CredsState
  loadSecretsResult : Except PyErr Unit
  flowResult : Except PyErr CredsState
  writeResult : Except PyErr Unit
deriving Repr

/-- Refresh calls in an auth trace. -/
def countRefreshCalls (tr : List AuthOp) : Nat :=
  tr.countP fun o =>
    match o with
    | AuthOp.refreshCall => true
    | _ => false

/-- Token-file writes in an auth trace. -/
def countTokenWrites (tr : List AuthOp) : Nat :=
  tr.countP fun o =>
    match o with
    | AuthOp.writeTokenFile _ => true
    | _ => false

/-- Interactive-flow launches (`run_local_server`) in an auth trace. -/
def countFlowRuns (tr : List AuthOp) : Nat :=
  tr.countP fun o =>
    match o with
    | AuthOp.runLocalServer _ => true
    | _ => false

/-- Secrets-file loads (`from_client_secrets_file`) in an auth trace. -/
def countSecretsLoads (tr : List AuthOp) : Nat :=
  tr.countP fun o =>
    match o with
    | AuthOp.loadSecrets _ => true
    | _ => false

/-- Operations that reach the network (token refresh, the interactive
authorization flow, and the discovery-based service construction). -/
def countNetworkOps (tr : List AuthOp) : Nat :=
  tr.countP fun o =>
    match o with
    | AuthOp.refreshCall => true
    | AuthOp.runLocalServer _ => true
    | AuthOp.buildService => true
    | _ => false

/-! ### YouTube uploader (`src/media_uploader/youtube/uploader.py`) -/

/-- Attribute state of a `YoutubeUploader`: `__init__` assigns every
attribute before any method can run, so the fields are total; `youtube`
is the service handle, `None` until `authenticate` succeeds. -/
structure YoutubeUploaderState where
  client_secrets_file : String
  token_file_path : String
  local_server_port : Nat
  scopes : List String
  youtube : Option Unit
deriving DecidableEq, Repr

/-- `YoutubeUploader.__init__`. -/
def youtubeInit (client_secrets_file token_file_path : String) (local_server_port : Nat) :
    YoutubeUploaderState :=
  { client_secrets_file := client_secrets_file
    token_file_path := token_file_path
    local_server_port := local_server_port
    scopes := ["https://www.googleapis.com/auth/youtube.upload"]
    youtube := none }

/-- The refresh-or-interactive-flow branch of `YoutubeUploader.authenticate`
(`canRefresh` is Python `creds and creds.expired and creds.refresh_token`).
The interactive flow binds the local server to `self.local_server_port`. -/
def youtubeRenew (u : YoutubeUploaderState) (env : AuthEnv) (canRefresh : Bool) :
    Except PyErr CredsState × List AuthOp :=
  if canRefresh then
    match env.refreshResult with
    | Except.error e => (Except.error e, [AuthOp.refreshCall])
    | Except.ok c => (Except.ok c, [AuthOp.refreshCall])
  else
    match env.loadSecretsResult with
    | Except.error e => (Except.error e, [AuthOp.loadSecrets u.client_secrets_file])
    | Except.ok _ =>
      match env.flowResult with
      | Except.error e =>
        (Except.error e,
         [AuthOp.loadSecrets u.client_secrets_file, AuthOp.runLocalServer u.local_server_port])
      | Except.ok c =>
        (Except.ok c,
         [AuthOp.loadSecrets u.client_secrets_file, AuthOp.runLocalServer u.local_server_port])

/-- The token-file write that follows a refresh or a completed flow in
`YoutubeUploader.authenticate`, then the service construction. -/
def youtubeSaveAndBuild (u : YoutubeUploaderState) (env : AuthEnv) (tr : List AuthOp) :
    Except PyErr YoutubeUploaderState × List AuthOp :=
  match env.writeResult with
  | Except.error e => (Except.error e, tr ++ [AuthOp.writeTokenFile u.token_file_path])
  | Except.ok _ =>
    (Except.ok { u with youtube := some () },
     tr ++ [AuthOp.writeTokenFile u.token_file_path, AuthOp.buildService])

/-- `YoutubeUploader.authenticate`: load the token file when present,
reuse a valid credential, silently refresh an expired one that has a
refresh token, otherwise run the interactive flow; persist after any
refresh or flow; finally build the service handle. -/
def youtube_authenticate (u : YoutubeUploaderState) (env : AuthEnv) :
    Except PyErr YoutubeUploaderState × List AuthOp :=
  if env.tokenFileExists then
    match env.loadToken with
    | Except.error e => (Except.error e, [AuthOp.loadTokenFile u.token_file_path])
    | Except.ok c =>
      if c.valid then
        (Except.ok { u with youtube := some () },
         [AuthOp.loadTokenFile u.token_file_path, AuthOp.buildService])
      else
        match youtubeRenew u env (c.expired && c.refresh_token) with
        | (Except.error e, tr2) =>
          (Except.error e, AuthOp.loadTokenFile u.token_file_path :: tr2)
        | (Except.ok _, tr2) =>
          youtubeSaveAndBuild u env (AuthOp.loadTokenFile u.token_file_path :: tr2)
  else
    match youtubeRenew u env false with
    | (Except.error e, tr2) => (Except.error e, tr2)
    | (Except.ok _, tr2) => youtubeSaveAndBuild u env tr2

/-! ### Drive uploader (`src/media_uploader/drive/uploader.py`) -/

/-- Attribute state of a `DriveUploader`.  Every field is `Option`
because `__init__` assigns them one at a time and calls
`get_drive_service` in the middle: reads of still-unassigned attributes
raise `AttributeError`. -/
structure DriveAttrs where
  token_file_path : Option String
  client_secrets_file : Option String
  service : Option Unit
  local_server_port : Option Nat
  scopes : Option (List String)
deriving DecidableEq, Repr

/-- The refresh-or-interactive-flow branch of `DriveUploader.get_credentials`.
Unlike the YouTube twin, the flow is started with `port=0` — the stored
`local_server_port` attribute is never consulted. -/
def driveRenew (a : DriveAttrs) (env : AuthEnv) (canRefresh : Bool) :
    Except PyErr CredsState × List AuthOp :=
  if canRefresh then
    match env.refreshResult with
    | Except.error e => (Except.error e, [AuthOp.refreshCall])
    | Except.ok c => (Except.ok c, [AuthOp.refreshCall])
  else
    match getAttr a.client_secrets_file "client_secrets_file" with
    | Except.error e => (Except.error e, [])
    | Except.ok csf =>
      match getAttr a.scopes "scopes" with
      | Except.error e => (Except.error e, [])
      | Except.ok _ =>
        match env.loadSecretsResult with
        | Except.error e => (Except.error e, [AuthOp.loadSecrets csf])
        | Except.ok _ =>
          match env.flowResult with
          | Except.error e =>
            (Except.error e, [AuthOp.loadSecrets csf, AuthOp.runLocalServer 0])
          | Except.ok c =>
            (Except.ok c, [AuthOp.loadSecrets csf, AuthOp.runLocalServer 0])

/-- The token-file write at the end of `DriveUploader.get_credentials`. -/
def driveSave (tfp : String) (env : AuthEnv) (c : CredsState) (tr : List AuthOp) :
    Except PyErr CredsState × List AuthOp :=
  match env.writeResult with
  | Except.error e => (Except.error e, tr ++ [AuthOp.writeTokenFile tfp])
  | Except.ok _ => (Except.ok c, tr ++ [AuthOp.writeTokenFile tfp])

/-- `DriveUploader.get_credentials`: same load/refresh/flow/persist
policy as the YouTube uploader, but reading configuration through the
possibly-unassigned attributes of `self` (in particular `self.scopes`
is read before the token load and before the secrets load, matching the
Python argument evaluation order). -/
def drive_get_credentials (a : DriveAttrs) (env : AuthEnv) :
    Except PyErr CredsState × List AuthOp :=
  match getAttr a.token_file_path "token_file_path" with
  | Except.error e => (Except.error e, [])
  | Except.ok tfp =>
    if env.tokenFileExists then
      match getAttr a.scopes "scopes" with
      | Except.error e => (Except.error e, [])
      | Except.ok _ =>
        match env.loadToken with
        | Except.error e => (Except.error e, [AuthOp.loadTokenFile tfp])
        | Except.ok c =>
          if c.valid then (Except.ok c, [AuthOp.loadTokenFile tfp])
          else
            match driveRenew a env (c.expired && c.refresh_token) with
            | (Except.error e, tr2) => (Except.error e, AuthOp.loadTokenFile tfp :: tr2)
            | (Except.ok c2, tr2) =>
              driveSave tfp env c2 (AuthOp.loadTokenFile tfp :: tr2)
    else
      match driveRenew a env false with
      | (Except.error e, tr2) => (Except.error e, tr2)
      | (Except.ok c2, tr2) => driveSave tfp env c2 tr2

/-- `DriveUploader.get_drive_service`: obtain credentials, then build
the Drive service. -/
def get_drive_service (a : DriveAttrs) (env : AuthEnv) :
    Except PyErr Unit × List AuthOp :=
  match drive_get_credentials a env with
  | (Except.error e, tr) => (Except.error e, tr)
  | (Except.ok _, tr) => (Except.ok (), tr ++ [AuthOp.buildService])

/-- `DriveUploader.__init__`: assigns `token_file_path` and
`client_secrets_file`, then calls `get_drive_service` (hence
`get_credentials`), and only afterwards assigns `local_server_port`
and `scopes`. -/
def driveInit (env : AuthEnv) (client_secrets_file token_file_path : String)
    (local_server_port : Nat) : Except PyErr DriveAttrs × List AuthOp :=
  let a0 : DriveAttrs := ⟨none, none, none, none, none⟩
  let a1 : DriveAttrs := { a0 with token_file_path := some token_file_path }
  let a2 : DriveAttrs := { a1 with client_secrets_file := some client_secrets_file }
  match get_drive_service a2 env with
  | (Except.error e, tr) => (Except.error e, tr)
  | (Except.ok srv, tr) =>
    let a3 : DriveAttrs := { a2 with service := some srv }
    let a4 : DriveAttrs := { a3 with local_server_port := some local_server_port }
    let a5 : DriveAttrs := { a4 with scopes := some ["https://www.googleapis.com/auth/drive"] }
    (Except.ok a5, tr)

/-! ## YouTube enumerations and the video metadata payload
(`src/media_uploader/youtube/enums.py`, `upload_video`) -/

/-- `YoutubeCategory` enumeration. -/
inductive YoutubeCategory where
  | FILM_ANIMATION | AUTOS_VEHICLES | MUSIC | PETS_ANIMALS | SPORTS
  | SHORT_MOVIES | TRAVEL_EVENTS | GAMING | VIDEOBLOGGING | PEOPLE_BLOGS
  | COMEDY | ENTERTAINMENT | NEWS_POLITICS | HOWTO_STYLE | EDUCATION
  | SCIENCE_TECHNOLOGY | NONPROFITS_ACTIVISM
deriving DecidableEq, Repr

/-- Wire-format code of a `YoutubeCategory` (the Python enum `.value`). -/
def YoutubeCategory.value : YoutubeCategory → String
  | FILM_ANIMATION => "1"
  | AUTOS_VEHICLES => "2"
  | MUSIC => "10"
  | PETS_ANIMALS => "15"
  | SPORTS => "17"
  | SHORT_MOVIES => "18"
  | TRAVEL_EVENTS => "19"
  | GAMING => "20"
  | VIDEOBLOGGING => "21"
  | PEOPLE_BLOGS => "22"
  | COMEDY => "23"
  | ENTERTAINMENT => "24"
  | NEWS_POLITICS => "25"
  | HOWTO_STYLE => "26"
  | EDUCATION => "27"
  | SCIENCE_TECHNOLOGY => "28"
  | NONPROFITS_ACTIVISM => "29"

/-- `YoutubePrivacyStatus` enumeration. -/
inductive YoutubePrivacyStatus where
  | PUBLIC | PRIVATE | UNLISTED
deriving DecidableEq, Repr

/-- Wire-format code of a `YoutubePrivacyStatus`. -/
def YoutubePrivacyStatus.value : YoutubePrivacyStatus → String
  | PUBLIC => "public"
  | PRIVATE => "private"
  | UNLISTED => "unlisted"

/-- `YoutubeLicense` enumeration. -/
inductive YoutubeLicense where
  | YOUTUBE | CREATIVE_COMMON
deriving DecidableEq, Repr

/-- Wire-format code of a `YoutubeLicense`. -/
def YoutubeLicense.value : YoutubeLicense → String
  | YOUTUBE => "youtube"
  | CREATIVE_COMMON => "creativeCommon"

/-- The `snippet` part of the metadata payload built by `upload_video`. -/
structure VideoSnippet where
  title : String
  description : String
  categoryId : String
  tags : List String
  defaultLanguage : Option String
deriving DecidableEq, Repr

/-- The `status` part of the metadata payload built by `upload_video`. -/
structure VideoStatus where
  privacyStatus : String
  embeddable : Bool
  license : String
  publicStatsViewable : Bool
  publishAt : Option String
  recordingDate : Option String
  selfDeclaredMadeForKids : Bool
deriving DecidableEq, Repr

/-- The full `body` dictionary submitted by `upload_video`. -/
structure VideoBody where
  snippet : VideoSnippet
  status : VideoStatus
deriving DecidableEq, Repr

/-- The `body` dictionary `YoutubeUploader.upload_video` assembles from
its arguments (`tags or []` defaults the tag list; the enumerated
arguments contribute their `.value` string codes). -/
def upload_video_body (title description : String) (category : YoutubeCategory)
    (privacy_status : YoutubePrivacyStatus) (tags : Option (List String))
    (default_language : Option String) (embeddable : Bool) (license : YoutubeLicense)
    (public_stats_viewable : Bool) (publish_at recording_date : Option String)
    (made_for_kids : Bool) : VideoBody :=
  { snippet :=
      { title := title
        description := description
        categoryId := category.value
        tags := tags.getD []
        defaultLanguage := default_language }
    status :=
      { privacyStatus := privacy_status.value
        embeddable := embeddable
        license := license.value
        publicStatsViewable := public_stats_viewable
        publishAt := publish_at
        recordingDate := recording_date
        selfDeclaredMadeForKids := made_for_kids } }

/-- `YoutubeUploader.upload_video` up to the point the request is
issued: requires `authenticate` to have set the service handle
(`self.youtube.videos()` on `None` raises), then submits the assembled
body. -/
def upload_video (u : YoutubeUploaderState) (title description : String)
    (category : YoutubeCategory) (privacy_status : YoutubePrivacyStatus)
    (tags : Option (List String)) (default_language : Option String) (embeddable : Bool)
    (license : YoutubeLicense) (public_stats_viewable : Bool)
    (publish_at recording_date : Option String) (made_for_kids : Bool) :
    Except PyErr VideoBody :=
  match u.youtube with
  | none => Except.error (PyErr.attributeError "videos")
  | some _ =>
    Except.ok (upload_video_body title description category privacy_status tags
      default_language embeddable license public_stats_viewable publish_at
      recording_date made_for_kids)

example :
    find_or_create_folder ⟨[], 0⟩ "a/b" none =
      (some 1,
       ⟨[⟨0, "a", none, true⟩, ⟨1, "b", some 0, true⟩], 2⟩,
       [RemoteOp.listFolders "a" none 0, RemoteOp.createFolder "a" none 0,
        RemoteOp.listFolders "b" (some 0) 0, RemoteOp.createFolder "b" (some 0) 1]) := by
  decide

/-! ## Lemmas about folder resolution -/

theorem countFolderCreates_append (t1 t2 : List RemoteOp) :
    countFolderCreates (t1 ++ t2) = countFolderCreates t1 + countFolderCreates t2 := by
  simp [countFolderCreates, List.countP_append]

theorem countFileCreates_append (t1 t2 : List RemoteOp) :
    countFileCreates (t1 ++ t2) = countFileCreates t1 + countFileCreates t2 := by
  simp [countFileCreates, List.countP_append]

theorem countListCalls_append (t1 t2 : List RemoteOp) :
    countListCalls (t1 ++ t2) = countListCalls t1 + countListCalls t2 := by
  simp [countListCalls, List.countP_append]

/-- A folder node created for a query matches that query. -/
theorem folderQueryMatches_created (seg : String) (p : Option Nat) (i : Nat) :
    folderQueryMatches seg p ⟨i, seg, p, true⟩ = true := by
  cases p <;> simp [folderQueryMatches]

/-- A resolution step only appends nodes to the remote state. -/
theorem findOrCreateStep_extends (s : DriveState) (p : Option Nat) (seg : String) :
    ∃ ext, (findOrCreateStep s p seg).2.1.nodes = s.nodes ++ ext := by
  cases hq : listFolderQuery s seg p with
  | nil =>
    exact ⟨[⟨s.nextId, seg, p, true⟩], by simp [findOrCreateStep, hq, createFolderNode]⟩
  | cons n rest => exact ⟨[], by simp [findOrCreateStep, hq]⟩

/-- Folder resolution only appends nodes to the remote state. -/
theorem findOrCreateSegs_extends :
    ∀ (segs : List String) (s : DriveState) (p : Option Nat),
      ∃ ext, (findOrCreateSegs s segs p).2.1.nodes = s.nodes ++ ext := by
  intro segs
  induction segs with
  | nil => intro s p; exact ⟨[], by simp [findOrCreateSegs]⟩
  | cons seg rest ih =>
    intro s p
    obtain ⟨e1, h1⟩ := findOrCreateStep_extends s p seg
    obtain ⟨e2, h2⟩ :=
      ih (findOrCreateStep s p seg).2.1 (some (findOrCreateStep s p seg).1)
    exact ⟨e1 ++ e2, by simp [findOrCreateSegs, h2, h1, List.append_assoc]⟩

/-- Re-running a resolution step against any remote state that extends
the step's own output finds the node the step resolved: same id, no
state change, a single lookup call. -/
theorem findOrCreateStep_stable (s : DriveState) (p : Option Nat) (seg : String)
    (t : DriveState) (ext : List DriveNode)
    (h : t.nodes = (findOrCreateStep s p seg).2.1.nodes ++ ext) :
    findOrCreateStep t p seg =
      ((findOrCreateStep s p seg).1, t,
       [RemoteOp.listFolders seg p (listFolderQuery t seg p).length]) := by
  cases hq : listFolderQuery s seg p with
  | nil =>
    have hfil : s.nodes.filter (folderQueryMatches seg p) = [] := by
      simpa [listFolderQuery] using hq
    have hn : t.nodes = s.nodes ++ [⟨s.nextId, seg, p, true⟩] ++ ext := by
      simpa [findOrCreateStep, hq, createFolderNode] using h
    have hqt : listFolderQuery t seg p =
        ⟨s.nextId, seg, p, true⟩ :: ext.filter (folderQueryMatches seg p) := by
      simp [listFolderQuery, hn, List.filter_append, hfil, folderQueryMatches_created]
    simp [findOrCreateStep, hq, hqt, createFolderNode]
  | cons n rest =>
    have hfil : s.nodes.filter (folderQueryMatches seg p) = n :: rest := by
      simpa [listFolderQuery] using hq
    have hn : t.nodes = s.nodes ++ ext := by
      simpa [findOrCreateStep, hq] using h
    have hqt : listFolderQuery t seg p =
        n :: (rest ++ ext.filter (folderQueryMatches seg p)) := by
      simp [listFolderQuery, hn, List.filter_append, hfil]
    simp [findOrCreateStep, hq, hqt]

/-- Re-running the whole resolution against any remote state extending
its own output resolves the same id, creates nothing, and leaves the
state unchanged. -/
theorem findOrCreateSegs_stable :
    ∀ (segs : List String) (s : DriveState) (p : Option Nat) (t : DriveState)
      (ext : List DriveNode),
      t.nodes = (findOrCreateSegs s segs p).2.1.nodes ++ ext →
      (findOrCreateSegs t segs p).1 = (findOrCreateSegs s segs p).1 ∧
      (findOrCreateSegs t segs p).2.1 = t ∧
      countFolderCreates (findOrCreateSegs t segs p).2.2 = 0 := by
  intro segs
  induction segs with
  | nil => intro s p t ext h; simp [findOrCreateSegs, countFolderCreates]
  | cons seg rest ih =>
    intro s p t ext h
    have hnest : (findOrCreateSegs s (seg :: rest) p).2.1 =
        (findOrCreateSegs (findOrCreateStep s p seg).2.1 rest
          (some (findOrCreateStep s p seg).1)).2.1 := by
      simp [findOrCreateSegs]
    rw [hnest] at h
    obtain ⟨e2, he2⟩ :=
      findOrCreateSegs_extends rest (findOrCreateStep s p seg).2.1
        (some (findOrCreateStep s p seg).1)
    have h' : t.nodes = (findOrCreateStep s p seg).2.1.nodes ++ (e2 ++ ext) := by
      rw [h, he2, List.append_assoc]
    have hstep := findOrCreateStep_stable s p seg t (e2 ++ ext) h'
    have hih := ih (findOrCreateStep s p seg).2.1 (some (findOrCreateStep s p seg).1) t ext h
    refine ⟨?_, ?_, ?_⟩
    · simp only [findOrCreateSegs, hstep]
      exact hih.1
    · simp only [findOrCreateSegs, hstep]
      exact hih.2.1
    · simp only [findOrCreateSegs, hstep]
      rw [countFolderCreates_append, hih.2.2]
      simp [countFolderCreates, List.countP_cons, List.countP_nil]

/-- A lookup that found something leaves `queryBeforeCreate` looking at
the rest of the trace. -/
theorem queryBeforeCreate_cons_found (n : String) (p : Option Nat) (k : Nat)
    (tr : List RemoteOp) :
    queryBeforeCreate (RemoteOp.listFolders n p (k + 1) :: tr) = queryBeforeCreate tr := by
  cases tr with
  | nil => simp [queryBeforeCreate]
  | cons o rest => simp [queryBeforeCreate]

/-- An empty lookup followed by the matching create is accepted by
`queryBeforeCreate`. -/
theorem queryBeforeCreate_cons_create (n : String) (p : Option Nat) (i : Nat)
    (tr : List RemoteOp) :
    queryBeforeCreate
      (RemoteOp.listFolders n p 0 :: RemoteOp.createFolder n p i :: tr) =
      queryBeforeCreate tr := by
  simp [queryBeforeCreate]

/-- Every trace of folder resolution respects query-before-create. -/
theorem findOrCreateSegs_queryBeforeCreate :
    ∀ (segs : List String) (s : DriveState) (p : Option Nat),
      queryBeforeCreate (findOrCreateSegs s segs p).2.2 = true := by
  intro segs
  induction segs with
  | nil => intro s p; simp [findOrCreateSegs, queryBeforeCreate]
  | cons seg rest ih =>
    intro s p
    cases hq : listFolderQuery s seg p with
    | nil =>
      simp only [findOrCreateSegs, findOrCreateStep, hq, createFolderNode]
      simp [queryBeforeCreate_cons_create, ih]
    | cons n l =>
      simp only [findOrCreateSegs, findOrCreateStep, hq]
      simp [queryBeforeCreate_cons_found, ih]

/-- C1: for every destination path and every remote state, running
`find_or_create_folder` twice in sequence resolves the same folder id
both times; the second run creates zero folder nodes and leaves the
remote state untouched; and in both runs every segment is looked up
before any create, a create being issued only when the lookup returned
zero results. -/
theorem find_or_create_folder_idempotent (folder_path : String) (parent_id : Option Nat)
    (s : DriveState) :
    (find_or_create_folder (find_or_create_folder s folder_path parent_id).2.1
        folder_path parent_id).1 = (find_or_create_folder s folder_path parent_id).1 ∧
    (find_or_create_folder (find_or_create_folder s folder_path parent_id).2.1
        folder_path parent_id).2.1 = (find_or_create_folder s folder_path parent_id).2.1 ∧
    countFolderCreates (find_or_create_folder
        (find_or_create_folder s folder_path parent_id).2.1 folder_path parent_id).2.2 = 0 ∧
    queryBeforeCreate (find_or_create_folder s folder_path parent_id).2.2 = true ∧
    queryBeforeCreate (find_or_create_folder
        (find_or_create_folder s folder_path parent_id).2.1 folder_path parent_id).2.2 =
      true := by
  have hs := findOrCreateSegs_stable (pySplitSlash folder_path) s parent_id
    (findOrCreateSegs s (pySplitSlash folder_path) parent_id).2.1 [] (by simp)
  refine ⟨?_, ?_, ?_, ?_, ?_⟩
  · simpa [find_or_create_folder] using hs.1
  · simpa [find_or_create_folder] using hs.2.1
  · simpa [find_or_create_folder] using hs.2.2
  · simpa [find_or_create_folder] using
      findOrCreateSegs_queryBeforeCreate (pySplitSlash folder_path) s parent_id
  · simpa [find_or_create_folder] using
      findOrCreateSegs_queryBeforeCreate (pySplitSlash folder_path)
        (findOrCreateSegs s (pySplitSlash folder_path) parent_id).2.1 parent_id

/-! ## Count bookkeeping lemmas -/

@[simp] theorem countFileCreates_nil : countFileCreates [] = 0 := rfl

@[simp] theorem countFolderCreates_nil : countFolderCreates [] = 0 := rfl

@[simp] theorem countListCalls_nil : countListCalls [] = 0 := rfl

@[simp] theorem countFileCreates_cons (o : RemoteOp) (tr : List RemoteOp) :
    countFileCreates (o :: tr) =
      (match o with | RemoteOp.createFile _ _ _ => 1 | _ => 0) + countFileCreates tr := by
  cases o <;> simp [countFileCreates, List.countP_cons, Nat.add_comm]

@[simp] theorem countFolderCreates_cons (o : RemoteOp) (tr : List RemoteOp) :
    countFolderCreates (o :: tr) =
      (match o with | RemoteOp.createFolder _ _ _ => 1 | _ => 0) + countFolderCreates tr := by
  cases o <;> simp [countFolderCreates, List.countP_cons, Nat.add_comm]

@[simp] theorem countListCalls_cons (o : RemoteOp) (tr : List RemoteOp) :
    countListCalls (o :: tr) =
      (match o with | RemoteOp.listFolders _ _ _ => 1 | _ => 0) + countListCalls tr := by
  cases o <;> simp [countListCalls, List.countP_cons, Nat.add_comm]

@[simp] theorem countRefreshCalls_nil : countRefreshCalls [] = 0 := rfl

@[simp] theorem countTokenWrites_nil : countTokenWrites [] = 0 := rfl

@[simp] theorem countFlowRuns_nil : countFlowRuns [] = 0 := rfl

@[simp] theorem countSecretsLoads_nil : countSecretsLoads [] = 0 := rfl

@[simp] theorem countNetworkOps_nil : countNetworkOps [] = 0 := rfl

@[simp] theorem countRefreshCalls_cons (o : AuthOp) (tr : List AuthOp) :
    countRefreshCalls (o :: tr) =
      (match o with | AuthOp.refreshCall => 1 | _ => 0) + countRefreshCalls tr := by
  cases o <;> simp [countRefreshCalls, List.countP_cons, Nat.add_comm]

@[simp] theorem countTokenWrites_cons (o : AuthOp) (tr : List AuthOp) :
    countTokenWrites (o :: tr) =
      (match o with | AuthOp.writeTokenFile _ => 1 | _ => 0) + countTokenWrites tr := by
  cases o <;> simp [countTokenWrites, List.countP_cons, Nat.add_comm]

@[simp] theorem countFlowRuns_cons (o : AuthOp) (tr : List AuthOp) :
    countFlowRuns (o :: tr) =
      (match o with | AuthOp.runLocalServer _ => 1 | _ => 0) + countFlowRuns tr := by
  cases o <;> simp [countFlowRuns, List.countP_cons, Nat.add_comm]

@[simp] theorem countSecretsLoads_cons (o : AuthOp) (tr : List AuthOp) :
    countSecretsLoads (o :: tr) =
      (match o with | AuthOp.loadSecrets _ => 1 | _ => 0) + countSecretsLoads tr := by
  cases o <;> simp [countSecretsLoads, List.countP_cons, Nat.add_comm]

@[simp] theorem countNetworkOps_cons (o : AuthOp) (tr : List AuthOp) :
    countNetworkOps (o :: tr) =
      (match o with
       | AuthOp.refreshCall => 1
       | AuthOp.runLocalServer _ => 1
       | AuthOp.buildService => 1
       | _ => 0) + countNetworkOps tr := by
  cases o <;> simp [countNetworkOps, List.countP_cons, Nat.add_comm]

/-- Folder resolution never creates file nodes. -/
theorem findOrCreateSegs_no_fileCreates :
    ∀ (segs : List String) (s : DriveState) (p : Option Nat),
      countFileCreates (findOrCreateSegs s segs p).2.2 = 0 := by
  intro segs
  induction segs with
  | nil => intro s p; simp [findOrCreateSegs]
  | cons seg rest ih =>
    intro s p
    cases hq : listFolderQuery s seg p <;>
      simp [findOrCreateSegs, findOrCreateStep, hq, countFileCreates_append, ih,
        createFolderNode]

/-- C2: for every environment and every constructor argument list,
constructing a `DriveUploader` fails with `AttributeError` on
`self.scopes`: `__init__` runs `get_drive_service` (hence
`get_credentials`) before assigning `scopes` and `local_server_port`,
and every code path of `get_credentials` reads `self.scopes` before any
external call, so construction never completes the load/refresh/authorize
flow and performs no auth operation at all. -/
theorem driveInit_always_attribute_error (env : AuthEnv)
    (client_secrets_file token_file_path : String) (local_server_port : Nat) :
    (driveInit env client_secrets_file token_file_path local_server_port).1 =
      Except.error (PyErr.attributeError "scopes") ∧
    (driveInit env client_secrets_file token_file_path local_server_port).2 = [] := by
  cases h : env.tokenFileExists <;>
    simp [driveInit, get_drive_service, drive_get_credentials, driveRenew, getAttr, h]

/-- C3 counterexample: on an empty remote state, uploading a source path
that is neither a file nor a directory does raise the invalid-argument
error, but only after `find_or_create_folder` has already issued network
calls (a lookup and a folder create for the destination path), so the
error is not raised before any network call. -/
theorem upload_value_error_after_network :
    (upload ⟨[], 0⟩ (LocalEntry.other "ghost") "dest").1 =
      Except.error (PyErr.valueError "ghost") ∧
    (upload ⟨[], 0⟩ (LocalEntry.other "ghost") "dest").2.2 =
      [RemoteOp.listFolders "dest" none 0, RemoteOp.createFolder "dest" none 0] ∧
    countListCalls (upload ⟨[], 0⟩ (LocalEntry.other "ghost") "dest").2.2 ≠ 0 :=
  ⟨rfl, rfl, by decide⟩

/-- C3 (amended): `upload` raises the invalid-argument `ValueError` if
and only if the source path is neither a file nor a directory, and the
error is raised after the destination resolution (whose network calls
make up the entire trace of the failing call) but before any upload
call. -/
theorem upload_value_error_iff (s : DriveState) (src_path : LocalEntry)
    (dst_path : String) :
    (exceptIsError (upload s src_path dst_path).1 = true ↔ isOtherEntry src_path = true) ∧
    (isOtherEntry src_path = true →
      (upload s src_path dst_path).1 =
        Except.error (PyErr.valueError (entryName src_path)) ∧
      (upload s src_path dst_path).2.2 = (find_or_create_folder s dst_path none).2.2) := by
  cases src_path <;> simp [upload, exceptIsError, isOtherEntry, entryName]

/-- Witness for the amended C3 at a concrete input. -/
theorem upload_value_error_iff_witness :
    (upload ⟨[], 0⟩ (LocalEntry.other "ghost") "dest").1 =
      Except.error (PyErr.valueError "ghost") ∧
    (upload ⟨[], 0⟩ (LocalEntry.other "ghost") "dest").2.2 =
      (find_or_create_folder ⟨[], 0⟩ "dest" none).2.2 :=
  (upload_value_error_iff ⟨[], 0⟩ (LocalEntry.other "ghost") "dest").2 rfl

/-- C6 counterexample: on a concrete call the provider assigns id 7 to
the created file node (recorded in the trace), but `upload_file` returns
`None` — not the created file's identifier. -/
theorem upload_file_returns_none_cex :
    (upload_file ⟨[], 7⟩ "video.mp4" (some 3)).2.2 =
      [RemoteOp.createFile "video.mp4" (some 3) 7] ∧
    (upload_file ⟨[], 7⟩ "video.mp4" (some 3)).1 = none ∧
    (upload_file ⟨[], 7⟩ "video.mp4" (some 3)).1 ≠ some 7 :=
  ⟨rfl, rfl, by decide⟩

/-- C6 (amended): `upload_file` creates exactly one new remote file node
under the given parent, but returns `None` (the Python method has no
return statement); the provider-assigned id is only recorded remotely. -/
theorem upload_file_creates_one_returns_none (s : DriveState) (file_name : String)
    (parent_id : Option Nat) :
    (upload_file s file_name parent_id).1 = none ∧
    (upload_file s file_name parent_id).2.1.nodes =
      s.nodes ++ [⟨s.nextId, file_name, parent_id, false⟩] ∧
    (upload_file s file_name parent_id).2.2 =
      [RemoteOp.createFile file_name parent_id s.nextId] ∧
    countFileCreates (upload_file s file_name parent_id).2.2 = 1 := by
  simp [upload_file]

/-- C7: the metadata payload built by `upload_video` carries the
wire-format string code of each enumerated argument; in particular
ENTERTAINMENT serializes to category code "24" and PRIVATE to privacy
"private". -/
theorem upload_video_body_serializes (title description : String)
    (category : YoutubeCategory) (privacy_status : YoutubePrivacyStatus)
    (tags : Option (List String)) (default_language : Option String) (embeddable : Bool)
    (license : YoutubeLicense) (public_stats_viewable : Bool)
    (publish_at recording_date : Option String) (made_for_kids : Bool) :
    (upload_video_body title description category privacy_status tags default_language
        embeddable license public_stats_viewable publish_at recording_date
        made_for_kids).snippet.categoryId = category.value ∧
    (upload_video_body title description category privacy_status tags default_language
        embeddable license public_stats_viewable publish_at recording_date
        made_for_kids).status.privacyStatus = privacy_status.value ∧
    (upload_video_body title description category privacy_status tags default_language
        embeddable license public_stats_viewable publish_at recording_date
        made_for_kids).status.license = license.value ∧
    YoutubeCategory.ENTERTAINMENT.value = "24" ∧
    YoutubePrivacyStatus.PRIVATE.value = "private" :=
  ⟨rfl, rfl, rfl, rfl, rfl⟩

/-! ## Folder upload counting -/

mutual

/-- Processing one listed child uploads every file reachable through
directories below it, creates one folder node per reachable directory
(itself included), and never issues a lookup. -/
theorem uploadFolderItem_counts :
    ∀ (e : LocalEntry) (s : DriveState) (parent : Option Nat),
      countFileCreates (uploadFolderItem s e parent).2 = entryFileCount e ∧
      countFolderCreates (uploadFolderItem s e parent).2 = entryDirCount e ∧
      countListCalls (uploadFolderItem s e parent).2 = 0
  | LocalEntry.file name, s, parent => by
    simp [uploadFolderItem, upload_file, entryFileCount, entryDirCount]
  | LocalEntry.dir name children, s, parent => by
    have hc := uploadFolderItems_counts children (createFolderNode s name parent).2
      (some (createFolderNode s name parent).1)
    simp [uploadFolderItem, entryFileCount, entryDirCount, hc.1, hc.2.1, hc.2.2]
  | LocalEntry.other name, s, parent => by
    simp [uploadFolderItem, entryFileCount, entryDirCount]

/-- The loop of `upload_folder` over the listed children: file-creation
calls equal the number of reachable files, folder-creation calls equal
the number of reachable directories, and no lookup is ever issued. -/
theorem uploadFolderItems_counts :
    ∀ (items : List LocalEntry) (s : DriveState) (parent : Option Nat),
      countFileCreates (uploadFolderItems s items parent).2 = entryListFileCount items ∧
      countFolderCreates (uploadFolderItems s items parent).2 = entryListDirCount items ∧
      countListCalls (uploadFolderItems s items parent).2 = 0
  | [], s, parent => by
    simp [uploadFolderItems, entryListFileCount, entryListDirCount]
  | e :: rest, s, parent => by
    have h1 := uploadFolderItem_counts e s parent
    have h2 := uploadFolderItems_counts rest (uploadFolderItem s e parent).1 parent
    simp [uploadFolderItems, countFileCreates_append, countFolderCreates_append,
      countListCalls_append, h1.1, h1.2.1, h1.2.2, h2.1, h2.2.1, h2.2.2,
      entryListFileCount, entryListDirCount]

end

/-- C5: uploading a directory with `upload` issues exactly one
file-creation call per regular file reachable below it (the immediate
files included) and one folder-creation call per subdirectory,
unconditionally: the entire folder-upload part of the trace contains no
lookup call (subdirectories are never resolved against existing
folders, unlike `find_or_create_folder`), and the only other calls are
those of the initial destination resolution. -/
theorem upload_directory_counts (s : DriveState) (dir_name dst_path : String)
    (children : List LocalEntry) :
    (upload s (LocalEntry.dir dir_name children) dst_path).2.2 =
      (find_or_create_folder s dst_path none).2.2 ++
        (uploadFolderItems (find_or_create_folder s dst_path none).2.1 children
          (find_or_create_folder s dst_path none).1).2 ∧
    countFileCreates (upload s (LocalEntry.dir dir_name children) dst_path).2.2 =
      entryListFileCount children ∧
    countFolderCreates (upload s (LocalEntry.dir dir_name children) dst_path).2.2 =
      countFolderCreates (find_or_create_folder s dst_path none).2.2 +
        entryListDirCount children ∧
    countListCalls (uploadFolderItems (find_or_create_folder s dst_path none).2.1 children
        (find_or_create_folder s dst_path none).1).2 = 0 := by
  have hf := findOrCreateSegs_no_fileCreates (pySplitSlash dst_path) s none
  have hc := uploadFolderItems_counts children (find_or_create_folder s dst_path none).2.1
    (find_or_create_folder s dst_path none).1
  refine ⟨by simp [upload], ?_, ?_, hc.2.2⟩
  · simp only [upload, countFileCreates_append, hc.1]
    simp only [find_or_create_folder] at hf ⊢
    omega
  · simp only [upload, countFolderCreates_append, hc.2.1]

/-- C9: uploading a single regular file issues exactly one file-creation
call beyond the destination resolution, creates no folders beyond those
the resolution created, and returns the folder id the resolution
resolved for the destination path. -/
theorem upload_single_file (s : DriveState) (file_name dst_path : String) :
    (upload s (LocalEntry.file file_name) dst_path).1 =
      Except.ok (find_or_create_folder s dst_path none).1 ∧
    (upload s (LocalEntry.file file_name) dst_path).2.2 =
      (find_or_create_folder s dst_path none).2.2 ++
        [RemoteOp.createFile file_name (find_or_create_folder s dst_path none).1
          (find_or_create_folder s dst_path none).2.1.nextId] ∧
    countFileCreates (upload s (LocalEntry.file file_name) dst_path).2.2 = 1 ∧
    countFolderCreates (upload s (LocalEntry.file file_name) dst_path).2.2 =
      countFolderCreates (find_or_create_folder s dst_path none).2.2 := by
  have hf := findOrCreateSegs_no_fileCreates (pySplitSlash dst_path) s none
  refine ⟨by simp [upload], by simp [upload, upload_file], ?_, ?_⟩
  · simp only [upload, upload_file, countFileCreates_append]
    simp only [find_or_create_folder] at hf ⊢
    simp [hf]
  · simp [upload, upload_file, countFolderCreates_append]

/-! ## Credential lifecycle theorems -/

/-- C4: with a token file holding an expired credential that has a
refresh token and a succeeding refresh, both the YouTube `authenticate`
and the Drive `get_credentials` logic perform exactly one refresh call
and exactly one token-file write, and never touch the secrets file or
launch the interactive flow. -/
theorem authenticate_expired_refresh_once (csf tfp : String) (port : Nat)
    (sc : List String) (env : AuthEnv) (c c2 : CredsState)
    (hex : env.tokenFileExists = true) (hload : env.loadToken = Except.ok c)
    (hvalid : c.valid = false) (hexp : c.expired = true) (hrt : c.refresh_token = true)
    (href : env.refreshResult = Except.ok c2) (hw : env.writeResult = Except.ok ()) :
    youtube_authenticate (youtubeInit csf tfp port) env =
      (Except.ok { youtubeInit csf tfp port with youtube := some () },
       [AuthOp.loadTokenFile tfp, AuthOp.refreshCall, AuthOp.writeTokenFile tfp,
        AuthOp.buildService]) ∧
    drive_get_credentials ⟨some tfp, some csf, none, some port, some sc⟩ env =
      (Except.ok c2,
       [AuthOp.loadTokenFile tfp, AuthOp.refreshCall, AuthOp.writeTokenFile tfp]) ∧
    countRefreshCalls (youtube_authenticate (youtubeInit csf tfp port) env).2 = 1 ∧
    countTokenWrites (youtube_authenticate (youtubeInit csf tfp port) env).2 = 1 ∧
    countFlowRuns (youtube_authenticate (youtubeInit csf tfp port) env).2 = 0 ∧
    countSecretsLoads (youtube_authenticate (youtubeInit csf tfp port) env).2 = 0 ∧
    countRefreshCalls
      (drive_get_credentials ⟨some tfp, some csf, none, some port, some sc⟩ env).2 = 1 ∧
    countTokenWrites
      (drive_get_credentials ⟨some tfp, some csf, none, some port, some sc⟩ env).2 = 1 ∧
    countFlowRuns
      (drive_get_credentials ⟨some tfp, some csf, none, some port, some sc⟩ env).2 = 0 ∧
    countSecretsLoads
      (drive_get_credentials ⟨some tfp, some csf, none, some port, some sc⟩ env).2 = 0 := by
  have hy : youtube_authenticate (youtubeInit csf tfp port) env =
      (Except.ok { youtubeInit csf tfp port with youtube := some () },
       [AuthOp.loadTokenFile tfp, AuthOp.refreshCall, AuthOp.writeTokenFile tfp,
        AuthOp.buildService]) := by
    simp [youtube_authenticate, youtubeRenew, youtubeSaveAndBuild, youtubeInit,
      hex, hload, hvalid, hexp, hrt, href, hw]
  have hd : drive_get_credentials ⟨some tfp, some csf, none, some port, some sc⟩ env =
      (Except.ok c2,
       [AuthOp.loadTokenFile tfp, AuthOp.refreshCall, AuthOp.writeTokenFile tfp]) := by
    simp [drive_get_credentials, driveRenew, driveSave, getAttr,
      hex, hload, hvalid, hexp, hrt, href, hw]
  refine ⟨hy, hd, ?_, ?_, ?_, ?_, ?_, ?_, ?_, ?_⟩ <;> simp [hy, hd]

/-- Witness for C4 at concrete inputs. -/
theorem authenticate_expired_refresh_once_witness :
    youtube_authenticate (youtubeInit "client_secrets.json" "youtube_token.json" 8081)
        ⟨true, Except.ok ⟨false, true, true⟩, Except.ok ⟨true, false, true⟩,
         Except.ok (), Except.ok ⟨true, false, true⟩, Except.ok ()⟩ =
      (Except.ok
        { youtubeInit "client_secrets.json" "youtube_token.json" 8081 with
            youtube := some () },
       [AuthOp.loadTokenFile "youtube_token.json", AuthOp.refreshCall,
        AuthOp.writeTokenFile "youtube_token.json", AuthOp.buildService]) ∧
    drive_get_credentials
        ⟨some "youtube_token.json", some "client_secrets.json", none, some 8081,
         some ["https://www.googleapis.com/auth/drive"]⟩
        ⟨true, Except.ok ⟨false, true, true⟩, Except.ok ⟨true, false, true⟩,
         Except.ok (), Except.ok ⟨true, false, true⟩, Except.ok ()⟩ =
      (Except.ok ⟨true, false, true⟩,
       [AuthOp.loadTokenFile "youtube_token.json", AuthOp.refreshCall,
        AuthOp.writeTokenFile "youtube_token.json"]) ∧
    countRefreshCalls
      (youtube_authenticate (youtubeInit "client_secrets.json" "youtube_token.json" 8081)
        ⟨true, Except.ok ⟨false, true, true⟩, Except.ok ⟨true, false, true⟩,
         Except.ok (), Except.ok ⟨true, false, true⟩, Except.ok ()⟩).2 = 1 ∧
    countTokenWrites
      (youtube_authenticate (youtubeInit "client_secrets.json" "youtube_token.json" 8081)
        ⟨true, Except.ok ⟨false, true, true⟩, Except.ok ⟨true, false, true⟩,
         Except.ok (), Except.ok ⟨true, false, true⟩, Except.ok ()⟩).2 = 1 ∧
    countFlowRuns
      (youtube_authenticate (youtubeInit "client_secrets.json" "youtube_token.json" 8081)
        ⟨true, Except.ok ⟨false, true, true⟩, Except.ok ⟨true, false, true⟩,
         Except.ok (), Except.ok ⟨true, false, true⟩, Except.ok ()⟩).2 = 0 ∧
    countSecretsLoads
      (youtube_authenticate (youtubeInit "client_secrets.json" "youtube_token.json" 8081)
        ⟨true, Except.ok ⟨false, true, true⟩, Except.ok ⟨true, false, true⟩,
         Except.ok (), Except.ok ⟨true, false, true⟩, Except.ok ()⟩).2 = 0 ∧
    countRefreshCalls
      (drive_get_credentials
        ⟨some "youtube_token.json", some "client_secrets.json", none, some 8081,
         some ["https://www.googleapis.com/auth/drive"]⟩
        ⟨true, Except.ok ⟨false, true, true⟩, Except.ok ⟨true, false, true⟩,
         Except.ok (), Except.ok ⟨true, false, true⟩, Except.ok ()⟩).2 = 1 ∧
    countTokenWrites
      (drive_get_credentials
        ⟨some "youtube_token.json", some "client_secrets.json", none, some 8081,
         some ["https://www.googleapis.com/auth/drive"]⟩
        ⟨true, Except.ok ⟨false, true, true⟩, Except.ok ⟨true, false, true⟩,
         Except.ok (), Except.ok ⟨true, false, true⟩, Except.ok ()⟩).2 = 1 ∧
    countFlowRuns
      (drive_get_credentials
        ⟨some "youtube_token.json", some "client_secrets.json", none, some 8081,
         some ["https://www.googleapis.com/auth/drive"]⟩
        ⟨true, Except.ok ⟨false, true, true⟩, Except.ok ⟨true, false, true⟩,
         Except.ok (), Except.ok ⟨true, false, true⟩, Except.ok ()⟩).2 = 0 ∧
    countSecretsLoads
      (drive_get_credentials
        ⟨some "youtube_token.json", some "client_secrets.json", none, some 8081,
         some ["https://www.googleapis.com/auth/drive"]⟩
        ⟨true, Except.ok ⟨false, true, true⟩, Except.ok ⟨true, false, true⟩,
         Except.ok (), Except.ok ⟨true, false, true⟩, Except.ok ()⟩).2 = 0 :=
  authenticate_expired_refresh_once "client_secrets.json" "youtube_token.json" 8081
    ["https://www.googleapis.com/auth/drive"]
    ⟨true, Except.ok ⟨false, true, true⟩, Except.ok ⟨true, false, true⟩,
     Except.ok (), Except.ok ⟨true, false, true⟩, Except.ok ()⟩
    ⟨false, true, true⟩ ⟨true, false, true⟩ rfl rfl rfl rfl rfl rfl rfl

/-- C8: with no token file and a secrets file whose load fails, both the
YouTube and the Drive credential logic propagate that exact error
unchanged, after a single secrets-load attempt and before any network
operation (no refresh, no interactive flow, no service build). -/
theorem obtain_no_token_bad_secrets (csf tfp : String) (port : Nat) (sc : List String)
    (env : AuthEnv) (e : PyErr)
    (hex : env.tokenFileExists = false)
    (hsec : env.loadSecretsResult = Except.error e) :
    youtube_authenticate (youtubeInit csf tfp port) env =
      (Except.error e, [AuthOp.loadSecrets csf]) ∧
    drive_get_credentials ⟨some tfp, some csf, none, some port, some sc⟩ env =
      (Except.error e, [AuthOp.loadSecrets csf]) ∧
    countNetworkOps (youtube_authenticate (youtubeInit csf tfp port) env).2 = 0 ∧
    countNetworkOps
      (drive_get_credentials ⟨some tfp, some csf, none, some port, some sc⟩ env).2 = 0 ∧
    countSecretsLoads (youtube_authenticate (youtubeInit csf tfp port) env).2 = 1 := by
  have hy : youtube_authenticate (youtubeInit csf tfp port) env =
      (Except.error e, [AuthOp.loadSecrets csf]) := by
    simp [youtube_authenticate, youtubeRenew, youtubeInit, hex, hsec]
  have hd : drive_get_credentials ⟨some tfp, some csf, none, some port, some sc⟩ env =
      (Except.error e, [AuthOp.loadSecrets csf]) := by
    simp [drive_get_credentials, driveRenew, getAttr, hex, hsec]
  refine ⟨hy, hd, ?_, ?_, ?_⟩ <;> simp [hy, hd]

/-- Witness for C8 at concrete inputs. -/
theorem obtain_no_token_bad_secrets_witness :
    youtube_authenticate (youtubeInit "client_secrets.json" "youtube_token.json" 8081)
        ⟨false, Except.error (PyErr.other "unused"), Except.error (PyErr.other "unused"),
         Except.error (PyErr.fileNotFound "client_secrets.json"),
         Except.error (PyErr.other "unused"), Except.ok ()⟩ =
      (Except.error (PyErr.fileNotFound "client_secrets.json"),
       [AuthOp.loadSecrets "client_secrets.json"]) ∧
    drive_get_credentials
        ⟨some "drive_token.json", some "client_secrets.json", none, some 8081,
         some ["https://www.googleapis.com/auth/drive"]⟩
        ⟨false, Except.error (PyErr.other "unused"), Except.error (PyErr.other "unused"),
         Except.error (PyErr.fileNotFound "client_secrets.json"),
         Except.error (PyErr.other "unused"), Except.ok ()⟩ =
      (Except.error (PyErr.fileNotFound "client_secrets.json"),
       [AuthOp.loadSecrets "client_secrets.json"]) ∧
    countNetworkOps
      (youtube_authenticate (youtubeInit "client_secrets.json" "youtube_token.json" 8081)
        ⟨false, Except.error (PyErr.other "unused"), Except.error (PyErr.other "unused"),
         Except.error (PyErr.fileNotFound "client_secrets.json"),
         Except.error (PyErr.other "unused"), Except.ok ()⟩).2 = 0 ∧
    countNetworkOps
      (drive_get_credentials
        ⟨some "drive_token.json", some "client_secrets.json", none, some 8081,
         some ["https://www.googleapis.com/auth/drive"]⟩
        ⟨false, Except.error (PyErr.other "unused"), Except.error (PyErr.other "unused"),
         Except.error (PyErr.fileNotFound "client_secrets.json"),
         Except.error (PyErr.other "unused"), Except.ok ()⟩).2 = 0 ∧
    countSecretsLoads
      (youtube_authenticate (youtubeInit "client_secrets.json" "youtube_token.json" 8081)
        ⟨false, Except.error (PyErr.other "unused"), Except.error (PyErr.other "unused"),
         Except.error (PyErr.fileNotFound "client_secrets.json"),
         Except.error (PyErr.other "unused"), Except.ok ()⟩).2 = 1 :=
  obtain_no_token_bad_secrets "client_secrets.json" "drive_token.json" 8081
    ["https://www.googleapis.com/auth/drive"]
    ⟨false, Except.error (PyErr.other "unused"), Except.error (PyErr.other "unused"),
     Except.error (PyErr.fileNotFound "client_secrets.json"),
     Except.error (PyErr.other "unused"), Except.ok ()⟩
    (PyErr.fileNotFound "client_secrets.json") rfl rfl

/-- C10: evaluated with no token file, a loadable secrets file and a
completing flow, the Drive uploader launches its local callback listener
with port 0 even though the constructor port 8081 is stored on the
object (`self.local_server_port` is never read), while the YouTube
uploader, constructed with the same port, launches the listener on
port 8081 as documented. -/
theorem drive_flow_ignores_local_server_port :
    (drive_get_credentials
        ⟨some "drive_token.json", some "client_secrets.json", none, some 8081,
         some ["https://www.googleapis.com/auth/drive"]⟩
        ⟨false, Except.error (PyErr.other "no token"),
         Except.error (PyErr.other "no refresh"), Except.ok (),
         Except.ok ⟨true, false, false⟩, Except.ok ()⟩).2 =
      [AuthOp.loadSecrets "client_secrets.json", AuthOp.runLocalServer 0,
       AuthOp.writeTokenFile "drive_token.json"] ∧
    (youtube_authenticate (youtubeInit "client_secrets.json" "youtube_token.json" 8081)
        ⟨false, Except.error (PyErr.other "no token"),
         Except.error (PyErr.other "no refresh"), Except.ok (),
         Except.ok ⟨true, false, false⟩, Except.ok ()⟩).2 =
      [AuthOp.loadSecrets "client_secrets.json", AuthOp.runLocalServer 8081,
       AuthOp.writeTokenFile "youtube_token.json", AuthOp.buildService] :=
  ⟨rfl, rfl⟩
